import Mathlib

/-!
Verification development for the device-actuation and recording layer of the
AW-ReAct repository (android_world task_evals scripts).

The Python functions under scrutiny are shallowly embedded as executable Lean
definitions:

* `auto_init_workflow.py` — `RealTimeOperationRecorder`:
  `_init_touch_device_bounds`, `_convert_raw_to_screen`, `_record_operation`,
  `record_text_input`, `_process_keyboard_event`, `_check_input_timeout`.
* `real_time_operations_script.py` / the template emitted by
  `json_script_generator.py` — `_click_by_index`, the `try/except IndexError`
  click step, `_input_text`.
* `json_script_generator.py` — `_generate_step_code` (modelled as a function
  from a recorded operation to the abstract step the generated code performs).
* `single/audio_recorder_init_steps.py` —
  `_click_element_by_content_description`, `_long_press_by_text`.

Python floats are modelled as exact rationals (`ℚ`); machine integers as `ℤ`
(no overflow is reachable at the magnitudes involved).  Python exceptions are
modelled with `Except` / explicit outcome types; `try/except` blocks become
matches on those outcomes.  Strings are ASCII in every scenario the claims
touch, so `str.lower` is modelled by an ASCII case fold.
-/

/-! ### Python string primitives -/

/-- ASCII case fold of one character, as `str.lower` acts on ASCII input. -/
def lowerChar (c : Char) : Char :=
  if 'A' ≤ c ∧ c ≤ 'Z' then Char.ofNat (c.toNat + 32) else c

/-- `s.lower()` on ASCII strings. -/
def pyLower (s : String) : String := String.mk (s.toList.map lowerChar)

/-- ASCII upcase of one character, as `str.upper` acts on ASCII input. -/
def upperChar (c : Char) : Char :=
  if 'a' ≤ c ∧ c ≤ 'z' then Char.ofNat (c.toNat - 32) else c

/-- `s.upper()` on ASCII strings. -/
def pyUpper (s : String) : String := String.mk (s.toList.map upperChar)

/-- Does `hay` start with `needle`? -/
def prefixAt : List Char → List Char → Bool
  | [], _ => true
  | _ :: _, [] => false
  | a :: as, b :: bs => (a == b) && prefixAt as bs

/-- Does `needle` occur contiguously somewhere in the list? -/
def substrAux (needle : List Char) : List Char → Bool
  | [] => prefixAt needle []
  | b :: bs => prefixAt needle (b :: bs) || substrAux needle bs

/-- Python's `needle in hay` substring test. -/
def pyContains (hay needle : String) : Bool := substrAux needle.toList hay.toList

/-- The whitespace characters removed by Python's `str.strip()` (ASCII range). -/
def pyIsSpace (c : Char) : Bool :=
  c == ' ' || c == '\t' || c == '\n' || c == '\r' || c == Char.ofNat 11 || c == Char.ofNat 12

/-- Python's `s.strip()`: drop leading and trailing whitespace. -/
def pyStrip (s : String) : String :=
  String.mk (((s.toList.dropWhile pyIsSpace).reverse.dropWhile pyIsSpace).reverse)

/-! ### Data model -/

/-- One accessibility node, restricted to the fields the embedded operations
consult (`class_name`, `clickable` and `bbox_pixels` are never read by the
functions modelled here). `none` models a missing attribute, `some ""` an
empty string — both are falsy in the Python truthiness tests. -/
structure UIElement where
  text : Option String := none
  content_description : Option String := none
deriving DecidableEq

/-- Element features captured at record time (`_find_element_by_coords`
result); only the `index` field is consulted by the script generator. -/
structure ElementInfo where
  index : Option Int := none
deriving DecidableEq

/-- A primitive device command as built by the executors: a `JSONAction`
dispatched through `actuation.execute_adb_action`, or a plain sleep. -/
inductive Prim where
  | clickIndex (index : Nat)
  | clickCoord (x y : Option Int)
  | longPressIndex (index : Nat)
  | inputText (text : String) (clear_text : Bool)
  | waitFor (duration : ℚ)
deriving DecidableEq

/-- The Python exceptions the embedded code can raise. -/
inductive PyExc where
  | indexError (msg : String)
  | runtimeError (msg : String)
deriving DecidableEq

/-! ### First-match scan

Both resolver loops (`for idx, elem in enumerate(ui_elements): if p(elem): …`)
return the earliest index whose element satisfies the predicate. -/

/-- Index of the first element satisfying `p`, scanning left to right. -/
def first_match (p : α → Bool) : List α → Option Nat
  | [] => none
  | e :: rest => if p e then some 0 else (first_match p rest).map (· + 1)

theorem first_match_none_iff (p : α → Bool) (l : List α) :
    first_match p l = none ↔ ∀ e ∈ l, p e = false := by
  induction l with
  | nil => simp [first_match]
  | cons a l ih =>
    by_cases h : p a <;> simp [first_match, h, ih]

theorem first_match_isSome_iff (p : α → Bool) (l : List α) :
    (first_match p l).isSome ↔ ∃ e ∈ l, p e = true := by
  induction l with
  | nil => simp [first_match]
  | cons a l ih =>
    by_cases h : p a <;> simp [first_match, h, ih]

theorem first_match_eq_some (p : α → Bool) (l : List α) (i : Nat)
    (h : first_match p l = some i) :
    ∃ hi : i < l.length,
      p (l.get ⟨i, hi⟩) = true ∧ ∀ e ∈ l.take i, p e = false := by
  induction l generalizing i with
  | nil => simp [first_match] at h
  | cons a l ih =>
    by_cases ha : p a
    · simp [first_match, ha] at h
      subst h
      exact ⟨Nat.succ_pos _, ha, by simp⟩
    · simp [first_match, ha] at h
      obtain ⟨j, hj, rfl⟩ := h
      obtain ⟨hjl, hp, hpre⟩ := ih j hj
      refine ⟨Nat.succ_lt_succ hjl, ?_, ?_⟩
      · simpa using hp
      · intro e he
        simp [List.take_succ_cons] at he
        rcases he with rfl | he
        · simpa using ha
        · exact hpre e he

/-! ### Element resolution by content description
(`audio_recorder_init_steps.py`, `_click_element_by_content_description`) -/

/-- `desc = getattr(elem, "content_description", False)` followed by
`if desc and target.lower() in desc.lower()`. -/
def descMatches (target : String) (e : UIElement) : Bool :=
  match e.content_description with
  | none => false
  | some d => (!(d == "")) && pyContains (pyLower d) (pyLower target)

/-- Outcome of `_click_element_by_content_description`. -/
inductive DescClickOutcome where
  | clicked (index : Nat)
  | raisedNoMatch
  | fellThrough
deriving DecidableEq

/-- `_click_element_by_content_description`, lines 374–411.  In the source the
`raise RuntimeError(...)` statement is indented inside the outer
`for target in target_descs` loop, directly after the inner element loop: the
first candidate that matches no element raises, so the remaining candidates
(`_rest` below) are dead code.  An empty candidate list skips both loops and
returns normally without clicking (`fellThrough`). -/
def click_element_by_content_description
    (ui : List UIElement) : List String → DescClickOutcome
  | [] => .fellThrough
  | target :: _rest =>
    match first_match (descMatches target) ui with
    | some idx => .clicked idx
    | none => .raisedNoMatch

/-! ### Element resolution by text
(`audio_recorder_init_steps.py`, `_long_press_by_text`) -/

/-- `elem_text = getattr(elem, "text", None)` followed by
`if elem_text and text.lower() == elem_text.lower()`. -/
def textMatches (target : String) (e : UIElement) : Bool :=
  match e.text with
  | none => false
  | some s => (!(s == "")) && (pyLower target == pyLower s)

/-- The candidate/element double loop of `_long_press_by_text`, lines 475–492:
candidates in list order, and within a candidate the earliest matching
element index. -/
def find_text_match (ui : List UIElement) : List String → Option Nat
  | [] => none
  | target :: rest =>
    match first_match (textMatches target) ui with
    | some idx => some idx
    | none => find_text_match ui rest

/-- `_long_press_by_text`, lines 454–518: text resolution first, then the
`fallback_index` bounds check, else `RuntimeError`/`IndexError`. -/
def long_press_by_text (ui : List UIElement) (target_texts : List String)
    (fallback_index : Option Int) : Except PyExc Prim :=
  match find_text_match ui target_texts with
  | some idx => .ok (.longPressIndex idx)
  | none =>
    match fallback_index with
    | none => .error (.runtimeError "no text match and no fallback index")
    | some fi =>
      if 0 ≤ fi ∧ fi < ui.length then .ok (.longPressIndex fi.toNat)
      else .error (.indexError "fallback index out of range")

/-- The spec's reading of a text match: some candidate compares equal to the
element's (present, non-empty) text under lowercase folding. -/
def specTextMatch (t : String) (e : UIElement) : Prop :=
  ∃ s, e.text = some s ∧ s ≠ "" ∧ pyLower t = pyLower s

theorem textMatches_iff (t : String) (e : UIElement) :
    textMatches t e = true ↔ specTextMatch t e := by
  unfold textMatches specTextMatch
  match h : e.text with
  | none => simp
  | some s =>
    simp only [Bool.and_eq_true, Bool.not_eq_true', beq_eq_false_iff_ne, beq_iff_eq]
    constructor
    · rintro ⟨hs, hfold⟩
      exact ⟨s, rfl, hs, hfold⟩
    · rintro ⟨s2, hs2, hne, hfold⟩
      cases hs2
      exact ⟨hne, hfold⟩

/-- How `find_text_match` decomposes a success: a first successful candidate
`k`, all earlier candidates matching no element, and `first_match` picking
the element index for candidate `k`. -/
theorem find_text_match_eq_some (ui : List UIElement) (targets : List String)
    (idx : Nat) (h : find_text_match ui targets = some idx) :
    ∃ k, ∃ hk : k < targets.length,
      first_match (textMatches (targets.get ⟨k, hk⟩)) ui = some idx
      ∧ ∀ j, ∀ hj : j < targets.length, j < k →
          first_match (textMatches (targets.get ⟨j, hj⟩)) ui = none := by
  induction targets with
  | nil => simp [find_text_match] at h
  | cons t rest ih =>
    rw [find_text_match] at h
    cases hfm : first_match (textMatches t) ui with
    | some i =>
      rw [hfm] at h
      cases h
      exact ⟨0, Nat.succ_pos _, hfm, fun j hj hj0 => absurd hj0 (Nat.not_lt_zero j)⟩
    | none =>
      rw [hfm] at h
      obtain ⟨k, hk, hfirst, hbefore⟩ := ih h
      refine ⟨k + 1, Nat.succ_lt_succ hk, by simpa using hfirst, ?_⟩
      intro j hj hjk
      match j with
      | 0 => exact hfm
      | j + 1 =>
        have := hbefore j (Nat.lt_of_succ_lt_succ hj) (Nat.lt_of_succ_lt_succ hjk)
        simpa using this

/-! ### Coordinate transform
(`auto_init_workflow.py`, `_init_touch_device_bounds` lines 46–80 and
`_convert_raw_to_screen` lines 82–99) -/

/-- The probed raw-axis ranges of the touch device. -/
structure TouchBounds where
  raw_min_x : Int
  raw_max_x : Int
  raw_min_y : Int
  raw_max_y : Int
deriving DecidableEq

/-- The documented default range, also the constructor defaults. -/
def defaultTouchBounds : TouchBounds :=
  { raw_min_x := 0, raw_max_x := 32767, raw_min_y := 0, raw_max_y := 32767 }

/-- The degenerate-range fallback at the end of `_init_touch_device_bounds`
(lines 71–74) applied to a successfully parsed probe: on each axis, when
`raw_max <= raw_min` only `raw_max` is reassigned to `32767`; `raw_min`
keeps the probed value.  (A probe that fails entirely keeps
`defaultTouchBounds` — the constructor defaults installed in `__init__`.) -/
def init_touch_device_bounds
    (probed_min_x probed_max_x probed_min_y probed_max_y : Int) : TouchBounds :=
  { raw_min_x := probed_min_x
    raw_max_x := if probed_max_x ≤ probed_min_x then 32767 else probed_max_x
    raw_min_y := probed_min_y
    raw_max_y := if probed_max_y ≤ probed_min_y then 32767 else probed_max_y }

/-- `max lo (min v hi)` — the clamp pattern used on both the raw input and the
screen output. -/
def clampInt (lo hi v : Int) : Int := max lo (min v hi)

/-- The `try` body of `_convert_raw_to_screen`:
`int((clamped - raw_min) / (raw_max - raw_min) * screen_dimension)` per axis,
then a clamp to `[0, screen_dimension]`.  Python's float division followed by
`int(...)` truncates the quotient toward zero, which on the exact rationals is
`Int.tdiv` of `(clamped - raw_min) * dim` by `(raw_max - raw_min)`.  The body
raises (`none`) exactly when a zero-width range makes the division divide by
zero; the x axis is computed before the y axis, and either failure aborts the
whole body. -/
def convert_try (b : TouchBounds) (screen_width screen_height raw_x raw_y : Int) :
    Option (Int × Int) :=
  if b.raw_max_x - b.raw_min_x = 0 ∨ b.raw_max_y - b.raw_min_y = 0 then none
  else
    let clamped_x := clampInt b.raw_min_x b.raw_max_x raw_x
    let clamped_y := clampInt b.raw_min_y b.raw_max_y raw_y
    let screen_x := Int.tdiv ((clamped_x - b.raw_min_x) * screen_width) (b.raw_max_x - b.raw_min_x)
    let screen_y := Int.tdiv ((clamped_y - b.raw_min_y) * screen_height) (b.raw_max_y - b.raw_min_y)
    some (clampInt 0 screen_width screen_x, clampInt 0 screen_height screen_y)

/-- `_convert_raw_to_screen`: the `try` body, with the bare `except` returning
the degraded modulo coordinates `(raw_x % screen_width, raw_y % screen_height)`
(Python `%` and `Int.emod` agree: the result takes the sign of the divisor). -/
def convert_raw_to_screen (b : TouchBounds) (screen_width screen_height raw_x raw_y : Int) :
    Int × Int :=
  match convert_try b screen_width screen_height raw_x raw_y with
  | some p => p
  | none => (raw_x % screen_width, raw_y % screen_height)

/-- Nearest integer to `n / d` for `d > 0`, halves up: `⌊n/d + 1/2⌋`. -/
def roundDiv (n d : Int) : Int := Int.fdiv (2 * n + d) (2 * d)

/-- Modelled from the spec's words for the transform (claim C3): per axis
`round((clamped - raw_min) / (raw_max - raw_min) * screen_dimension)`, then a
clamp to `[0, screen_dimension]`. -/
def to_screen_round_spec (b : TouchBounds) (screen_width screen_height raw_x raw_y : Int) :
    Int × Int :=
  let clamped_x := clampInt b.raw_min_x b.raw_max_x raw_x
  let clamped_y := clampInt b.raw_min_y b.raw_max_y raw_y
  (clampInt 0 screen_width (roundDiv ((clamped_x - b.raw_min_x) * screen_width) (b.raw_max_x - b.raw_min_x)),
   clampInt 0 screen_height (roundDiv ((clamped_y - b.raw_min_y) * screen_height) (b.raw_max_y - b.raw_min_y)))

/-- The amended description of the transform: per axis, truncation toward zero
of `(clamped - raw_min) / (raw_max - raw_min) * screen_dimension`, then a
clamp to `[0, screen_dimension]`. -/
def to_screen_trunc_spec (b : TouchBounds) (screen_width screen_height raw_x raw_y : Int) :
    Int × Int :=
  let clamped_x := clampInt b.raw_min_x b.raw_max_x raw_x
  let clamped_y := clampInt b.raw_min_y b.raw_max_y raw_y
  (clampInt 0 screen_width (Int.tdiv ((clamped_x - b.raw_min_x) * screen_width) (b.raw_max_x - b.raw_min_x)),
   clampInt 0 screen_height (Int.tdiv ((clamped_y - b.raw_min_y) * screen_height) (b.raw_max_y - b.raw_min_y)))

/-! ### Index click with coordinate fallback
(`real_time_operations_script.py` lines 56–111 and the identical template in
`json_script_generator.py`) -/

/-- `_click_by_index`, lines 56–85: the bounds check
`if not (0 <= index < len(ui_elements)): raise IndexError(...)`, otherwise a
`JSONAction(action_type=CLICK, index=index)` is executed. -/
def click_by_index (ui : List UIElement) (index : Int) : Except PyExc Prim :=
  if 0 ≤ index ∧ index < ui.length then .ok (.clickIndex index.toNat)
  else .error (.indexError "element index out of range")

/-- One generated click step with a recorded element index (`run_operations`,
e.g. lines 160–173): `try: self._click_by_index(...) except IndexError:
self._click_by_coords(x, y, ...)`.  Only `IndexError` is caught; any other
exception would propagate. -/
def click_step_try_index (ui : List UIElement) (index : Int) (x y : Option Int) :
    Except PyExc (List Prim) :=
  match click_by_index ui index with
  | .ok p => .ok [p]
  | .error (.indexError _) => .ok [.clickCoord x y]
  | .error e => .error e

/-! ### Script generation and replay
(`json_script_generator.py`, `_generate_step_code` lines 41–125, and the
generated executor methods) -/

/-- One entry of the recorded-operations JSON array, restricted to the fields
`_generate_step_code` reads.  A JSON `null` element is `none`; a recorded
element dict is `some` (the generator also maps an empty dict to the
no-index branch, which coincides with `none` here). -/
structure RecordedOp where
  action_type : String
  x : Option Int := none
  y : Option Int := none
  text : Option String := none
  duration : Option ℚ := none
  element : Option ElementInfo := none

/-- The abstract step the code emitted by `_generate_step_code` performs for
one recorded operation. -/
inductive Step where
  | clickIndexThenCoords (index : Int) (x y : Option Int)
  | clickCoordsOnly (x y : Option Int)
  | inputTextStep (text : String)
  | waitStep (duration : ℚ)
  | unsupported (action_type : String)

/-- `_generate_step_code` for a single operation: `click` with a recorded
element index becomes the try-index/except-coords step, `click` without one
(element `null` or index missing) a plain coordinate click, `input_text` a
text-entry step, `WAIT` a sleep, anything else a logged warning. -/
def generate_step (op : RecordedOp) : Step :=
  if pyLower op.action_type == "click" then
    match op.element with
    | some e =>
      match e.index with
      | some i => .clickIndexThenCoords i op.x op.y
      | none => .clickCoordsOnly op.x op.y
    | none => .clickCoordsOnly op.x op.y
  else if pyLower op.action_type == "input_text" then
    .inputTextStep (op.text.getD "")
  else if pyUpper op.action_type == "WAIT" then
    .waitStep (op.duration.getD 0)
  else .unsupported op.action_type

/-- Executing one generated step against a snapshot.  `_input_text`
(`real_time_operations_script.py` lines 113–137) always builds
`JSONAction(action_type=INPUT_TEXT, text=text, clear_text=True)`; an
unsupported action type only logs a warning. -/
def execute_step (ui : List UIElement) : Step → Except PyExc (List Prim)
  | .clickIndexThenCoords i x y => click_step_try_index ui i x y
  | .clickCoordsOnly x y => .ok [.clickCoord x y]
  | .inputTextStep t => .ok [.inputText t true]
  | .waitStep d => .ok [.waitFor d]
  | .unsupported _ => .ok []

/-- `run_operations`: the generated steps in recorded order; the first
uncaught exception aborts the replay. -/
def replay (ui : List UIElement) : List RecordedOp → Except PyExc (List Prim)
  | [] => .ok []
  | op :: rest => do
    let ps ← execute_step ui (generate_step op)
    let tail ← replay ui rest
    .ok (ps ++ tail)

/-! ### Operation recording
(`auto_init_workflow.py`, `_record_operation` lines 361–380 and
`record_text_input` lines 389–396) -/

/-- The payload of one recorded operation (the `**kwargs` passed to
`_record_operation`, minus the timestamp it adds itself). -/
inductive OpPayload where
  | clickOp (x y raw_x raw_y : Int) (element : Option ElementInfo)
  | inputTextOp (text : String)
deriving DecidableEq

/-- One entry of `self.operations`. -/
inductive RecEntry where
  | waitEntry (duration timestamp : ℚ)
  | opEntry (payload : OpPayload) (timestamp : ℚ)
deriving DecidableEq

/-- The recorder fields `_record_operation` and `record_text_input` touch.
Times are wall-clock seconds as exact rationals. -/
structure RecorderState where
  is_recording : Bool
  start_time : ℚ
  last_operation_time : ℚ
  operations : List RecEntry

/-- Python `round(q, 2)` modelled on exact rationals: nearest multiple of
1/100 (the half-to-even tie handling of binary floats is not distinguishable
at the inputs the claims exercise, none of which is an exact tie). -/
def round2 (q : ℚ) : ℚ := (⌊q * 100 + 1 / 2⌋ : ℤ) / 100

/-- `_record_operation` at wall-clock time `now`:
`wait_duration = current_time - last_operation_time`; a `WAIT` entry is
appended first iff `wait_duration > 1.0 and self.operations`; the new
operation entry is stamped with `current_time` and `last_operation_time`
advances to it. -/
def record_operation (s : RecorderState) (now : ℚ) (payload : OpPayload) :
    RecorderState :=
  let current_time := now - s.start_time
  let wait_duration := current_time - s.last_operation_time
  let withWait :=
    if wait_duration > 1 ∧ s.operations ≠ [] then
      s.operations ++ [RecEntry.waitEntry (round2 wait_duration) s.last_operation_time]
    else s.operations
  { s with
    operations := withWait ++ [RecEntry.opEntry payload current_time]
    last_operation_time := current_time }

/-- `record_text_input`: `if not self.is_recording or not text.strip(): return`,
else record an `input_text` operation carrying `text.strip()`. -/
def record_text_input (s : RecorderState) (now : ℚ) (text : String) :
    RecorderState :=
  if s.is_recording = false ∨ pyStrip text = "" then s
  else record_operation s now (.inputTextOp (pyStrip text))

/-! ### Keyboard accumulation and the idle-timeout check
(`auto_init_workflow.py`, `_process_keyboard_event` lines 210–248 and
`_check_input_timeout` lines 250–264) -/

/-- One device's pending-text buffer. -/
structure KeyCache where
  text : String
  last_input_time : ℚ
deriving DecidableEq

/-- `self._key_mapping.get(key_code, "")`. -/
def key_mapping (key_code : String) : String :=
  match key_code with
  | "KEY_A" => "a" | "KEY_B" => "b" | "KEY_C" => "c" | "KEY_D" => "d"
  | "KEY_E" => "e" | "KEY_F" => "f" | "KEY_G" => "g" | "KEY_H" => "h"
  | "KEY_I" => "i" | "KEY_J" => "j" | "KEY_K" => "k" | "KEY_L" => "l"
  | "KEY_M" => "m" | "KEY_N" => "n" | "KEY_O" => "o" | "KEY_P" => "p"
  | "KEY_Q" => "q" | "KEY_R" => "r" | "KEY_S" => "s" | "KEY_T" => "t"
  | "KEY_U" => "u" | "KEY_V" => "v" | "KEY_W" => "w" | "KEY_X" => "x"
  | "KEY_Y" => "y" | "KEY_Z" => "z"
  | "KEY_1" => "1" | "KEY_2" => "2" | "KEY_3" => "3" | "KEY_4" => "4"
  | "KEY_5" => "5" | "KEY_6" => "6" | "KEY_7" => "7" | "KEY_8" => "8"
  | "KEY_9" => "9" | "KEY_0" => "0"
  | "KEY_SPACE" => " " | "KEY_ENTER" => "\n"
  | _ => ""

/-- The body of `timeout_callback` in `_check_input_timeout`, executed at
wall-clock time `check_time`: flush the buffer as an `input_text` operation
iff `cache["text"].strip()` is non-empty and
`check_time - cache["last_input_time"] > self._input_timeout` (1.0 s). -/
def check_input_timeout (s : RecorderState) (cache : KeyCache) (check_time : ℚ) :
    RecorderState × KeyCache :=
  if pyStrip cache.text ≠ "" ∧ check_time - cache.last_input_time > 1 then
    (record_text_input s check_time cache.text, { cache with text := "" })
  else (s, cache)

/-- `_process_keyboard_event` for one device at wall-clock time `now`.
`last_input_time` is set to `now` before anything else.  The source spawns
`timeout_callback` on a fresh thread with **no sleep**, so the callback runs
after only a scheduling delay; `cb_delay ≥ 0` models that delay, and the
callback executes at `now + cb_delay` against the buffer as left by this
event (with `cb_delay ≤ 1` the flush condition is false regardless, so
modelling the callback inline is exact for prompt scheduling). -/
def process_keyboard_event (s : RecorderState) (cache0 : KeyCache)
    (key_code key_state : String) (now cb_delay : ℚ) :
    RecorderState × KeyCache :=
  let cache := { cache0 with last_input_time := now }
  if key_code == "KEY_LEFTSHIFT" then (s, cache)
  else if !(key_state == "DOWN") then (s, cache)
  else if key_code == "KEY_BACKSPACE" then
    (s, { cache with text := String.mk cache.text.toList.dropLast })
  else
    let ch := key_mapping key_code
    let cache := if ch == "" then cache else { cache with text := cache.text ++ ch }
    if key_code == "KEY_ENTER" && !(pyStrip cache.text == "") then
      (record_text_input s now cache.text, { cache with text := "" })
    else
      check_input_timeout s cache (now + cb_delay)

/-- One raw keyboard event as delivered to `_process_keyboard_event`, plus
the scheduling delay of the immediately spawned timeout-check thread. -/
structure KbEvent where
  key_code : String
  key_state : String
  time : ℚ
  cb_delay : ℚ

/-- The keyboard side of the listener loop: process the events in order.
After the last event no further code runs for this device until
`stop_recording` — the source schedules no delayed work. -/
def run_keyboard_events (s : RecorderState) (cache : KeyCache) :
    List KbEvent → RecorderState × KeyCache
  | [] => (s, cache)
  | ev :: rest =>
    let next := process_keyboard_event s cache ev.key_code ev.key_state ev.time ev.cb_delay
    run_keyboard_events next.1 next.2 rest

/-! ### Concrete scenario fixtures -/

/-- An element whose content description is "Recording: foo" (spec §8). -/
def recDemoElement : UIElement := { content_description := some "Recording: foo" }

/-- An element carrying an empty (falsy) `text` attribute. -/
def emptyTextElement : UIElement := { text := some "" }

/-- An element with text "OK" (spec §8). -/
def elemOK : UIElement := { text := some "OK" }

/-- The first operation of the spec's end-to-end replay scenario:
`{action_type:"click", x:100, y:200, element:null}`. -/
def c6_click_op : RecordedOp :=
  { action_type := "click", x := some 100, y := some 200, element := none }

/-- The second operation of that scenario: `{action_type:"input_text",
text:"Hello"}`. -/
def c6_input_op : RecordedOp := { action_type := "input_text", text := some "Hello" }

/-- A recorder that already holds one real operation, with zeroed clock. -/
def c7_base : RecorderState :=
  { is_recording := true, start_time := 0, last_operation_time := 0,
    operations := [RecEntry.opEntry (.inputTextOp "first") 0] }

/-- A freshly started recorder. -/
def freshRecorder : RecorderState :=
  { is_recording := true, start_time := 0, last_operation_time := 0, operations := [] }

/-- An empty keyboard buffer at time 0. -/
def freshKeyCache : KeyCache := { text := "", last_input_time := 0 }

/-- A single `KEY_A` key-down at time 0 whose timeout-check thread is
scheduled promptly (delay 0, as the source spawns it without sleeping). -/
def keyAEvent : KbEvent := { key_code := "KEY_A", key_state := "DOWN", time := 0, cb_delay := 0 }

/-! ### Claim theorems -/

/-- Claim C1 (code bug, evidence): against a snapshot holding an element whose
content description contains the second candidate, `_click_element_by_content_description`
with candidates `["zzz", "recording"]` raises its not-found error instead of
clicking — the raise inside the outer loop fires after the first candidate,
so later candidates are never tried even though `descMatches` accepts the
second one. -/
theorem c1_first_candidate_raises :
    click_element_by_content_description [recDemoElement] ["zzz", "recording"]
      = DescClickOutcome.raisedNoMatch
    ∧ descMatches "recording" recDemoElement = true := by
  exact ⟨rfl, rfl⟩

/-- Claim C2: a generated click step that carries a recorded element index
resolves deterministically — an in-range index yields exactly the index
click, an out-of-range one is caught (`except IndexError`) and yields exactly
the coordinate click; the step never lets the exception escape (the result
is always `.ok`). -/
theorem c2_index_click_fallback (ui : List UIElement) (index : Int) (x y : Option Int) :
    click_step_try_index ui index x y
      = .ok (if 0 ≤ index ∧ index < ui.length
             then [Prim.clickIndex index.toNat]
             else [Prim.clickCoord x y]) := by
  unfold click_step_try_index click_by_index
  by_cases hrange : 0 ≤ index ∧ index < ui.length <;> simp [hrange]

/-- Claim C3 (counterexample): at raw input (16000, 16000) with the default
0–32767 range on a 1080×2400 screen, `_convert_raw_to_screen` produces
`screen_y = 1171` (truncation), while the claimed nearest-integer rounding
formula produces 1172 — so the claim's formula disagrees with the code. -/
theorem c3_counterexample :
    (convert_raw_to_screen defaultTouchBounds 1080 2400 16000 16000).2 = 1171
    ∧ (to_screen_round_spec defaultTouchBounds 1080 2400 16000 16000).2 = 1172
    ∧ (1171 : Int) ≠ 1172 := by
  refine ⟨by decide, by decide, by decide⟩

/-- Claim C3 (amended): for every geometry with `raw_max > raw_min` on both
axes, `_convert_raw_to_screen` equals the truncation transform: per axis
`trunc((clamped - raw_min) / (raw_max - raw_min) * screen_dimension)` clamped
to `[0, screen_dimension]` (truncation toward zero, not nearest rounding). -/
theorem c3_truncation (b : TouchBounds) (w h rx ry : Int)
    (hx : b.raw_min_x < b.raw_max_x) (hy : b.raw_min_y < b.raw_max_y) :
    convert_raw_to_screen b w h rx ry = to_screen_trunc_spec b w h rx ry := by
  have hcond : ¬(b.raw_max_x - b.raw_min_x = 0 ∨ b.raw_max_y - b.raw_min_y = 0) := by omega
  simp [convert_raw_to_screen, convert_try, to_screen_trunc_spec, hcond]

/-- Claim C3 (amended, witness): the truncation transform agrees with the code
at the scenario input, where it yields (527, 1171). -/
theorem c3_truncation_witness :
    convert_raw_to_screen defaultTouchBounds 1080 2400 16000 16000
      = to_screen_trunc_spec defaultTouchBounds 1080 2400 16000 16000
    ∧ convert_raw_to_screen defaultTouchBounds 1080 2400 16000 16000 = (527, 1171) :=
  ⟨c3_truncation defaultTouchBounds 1080 2400 16000 16000 (by decide) (by decide),
   by decide⟩

/-- Claim C4 (counterexample): for the probed x-range (5000, 4000) —
degenerate, since `raw_max <= raw_min` — the fallback keeps `raw_min_x = 5000`
rather than substituting the documented default range (0, 32767) entirely. -/
theorem c4_counterexample :
    (init_touch_device_bounds 5000 4000 0 32767).raw_min_x = 5000
    ∧ (init_touch_device_bounds 5000 4000 0 32767).raw_max_x = 32767
    ∧ (5000 : Int) ≠ 0 := by
  refine ⟨by decide, by decide, by decide⟩

/-- Claim C4 (amended): when a probed axis is degenerate (`raw_max <= raw_min`)
only `raw_max` is replaced by the default 32767 while `raw_min` keeps the
probed value; and whatever bounds result, `_convert_raw_to_screen` never
propagates an exception — when the retained range is still degenerate the
caught division error yields the modulo fallback coordinates. -/
theorem c4_partial_default_substitution (pminx pmaxx pminy pmaxy : Int) :
    ((pmaxx ≤ pminx →
        (init_touch_device_bounds pminx pmaxx pminy pmaxy).raw_min_x = pminx
        ∧ (init_touch_device_bounds pminx pmaxx pminy pmaxy).raw_max_x = 32767)
      ∧ (pmaxy ≤ pminy →
        (init_touch_device_bounds pminx pmaxx pminy pmaxy).raw_min_y = pminy
        ∧ (init_touch_device_bounds pminx pmaxx pminy pmaxy).raw_max_y = 32767))
    ∧ ∀ w h rx ry,
        convert_try (init_touch_device_bounds pminx pmaxx pminy pmaxy) w h rx ry = none →
        convert_raw_to_screen (init_touch_device_bounds pminx pmaxx pminy pmaxy) w h rx ry
          = (rx % w, ry % h) := by
  refine ⟨⟨fun hdx => ?_, fun hdy => ?_⟩, fun w h rx ry hnone => ?_⟩
  · simp [init_touch_device_bounds, hdx]
  · simp [init_touch_device_bounds, hdy]
  · simp [convert_raw_to_screen, hnone]

/-- Claim C4 (amended, witness): a probe with `raw_min_x = 32767` and a
degenerate x-range keeps the zero-width range (32767, 32767), and the
conversion then returns the modulo fallback instead of raising. -/
theorem c4_witness :
    (init_touch_device_bounds 32767 30000 0 32767).raw_max_x = 32767
    ∧ convert_raw_to_screen (init_touch_device_bounds 32767 30000 0 32767) 1080 2400 5 7
        = (5 % 1080, 7 % 2400) :=
  ⟨((c4_partial_default_substitution 32767 30000 0 32767).1.1 (by decide)).2,
   (c4_partial_default_substitution 32767 30000 0 32767).2 1080 2400 5 7 (by decide)⟩

/-- Claim C5 (counterexample): an element whose `text` attribute is the empty
string is never selected, even though the empty candidate string compares
equal to it under lowercase folding — the code's truthiness guard
(`if elem_text and …`) rejects empty text, so selection is not equivalent to
fold-equality alone. -/
theorem c5_counterexample :
    find_text_match [emptyTextElement] [""] = none
    ∧ ∃ t ∈ ([""] : List String), ∃ s, emptyTextElement.text = some s
        ∧ pyLower t = pyLower s := by
  exact ⟨rfl, "", by simp, "", rfl, rfl⟩

/-- Claim C5 (amended): text resolution selects an element iff some candidate
compares equal, under lowercase folding, to the element's present and
non-empty text; candidates are tried in list order — the selecting candidate
is the first one matching any element — and within it the earliest-index
matching element wins. -/
theorem c5_text_match_characterization (ui : List UIElement) (targets : List String) :
    ((find_text_match ui targets).isSome ↔ ∃ t ∈ targets, ∃ e ∈ ui, specTextMatch t e)
    ∧ ∀ idx, find_text_match ui targets = some idx →
        ∃ hidx : idx < ui.length,
          ∃ k, ∃ hk : k < targets.length,
            specTextMatch (targets.get ⟨k, hk⟩) (ui.get ⟨idx, hidx⟩)
            ∧ (∀ e ∈ ui.take idx, ¬ specTextMatch (targets.get ⟨k, hk⟩) e)
            ∧ ∀ j, ∀ hj : j < targets.length, j < k →
                ∀ e ∈ ui, ¬ specTextMatch (targets.get ⟨j, hj⟩) e := by
  constructor
  · induction targets with
    | nil => simp [find_text_match]
    | cons t rest ih =>
      rw [find_text_match]
      cases hfm : first_match (textMatches t) ui with
      | some i =>
        simp only [Option.isSome_some, true_iff]
        have hsome : (first_match (textMatches t) ui).isSome := by rw [hfm]; rfl
        obtain ⟨e, he, hme⟩ := (first_match_isSome_iff (textMatches t) ui).mp hsome
        exact ⟨t, by simp, e, he, (textMatches_iff t e).mp hme⟩
      | none =>
        have hnone := (first_match_none_iff (textMatches t) ui).mp hfm
        rw [ih]
        constructor
        · rintro ⟨t2, ht2, e, he, hspec⟩
          exact ⟨t2, List.mem_cons_of_mem _ ht2, e, he, hspec⟩
        · rintro ⟨t2, ht2, e, he, hspec⟩
          rcases List.mem_cons.mp ht2 with rfl | ht2
          · exact absurd ((textMatches_iff t2 e).mpr hspec) (by simp [hnone e he])
          · exact ⟨t2, ht2, e, he, hspec⟩
  · intro idx h
    obtain ⟨k, hk, hfirst, hbefore⟩ := find_text_match_eq_some ui targets idx h
    obtain ⟨hidx, hp, hpre⟩ := first_match_eq_some _ ui idx hfirst
    refine ⟨hidx, k, hk, (textMatches_iff _ _).mp hp, ?_, ?_⟩
    · intro e he hspec
      have hb := hpre e he
      rw [(textMatches_iff _ _).mpr hspec] at hb
      simp at hb
    · intro j hj hjk e he hspec
      have hz := (first_match_none_iff _ ui).mp (hbefore j hj hjk) e he
      rw [(textMatches_iff _ _).mpr hspec] at hz
      simp at hz

/-- Claim C5 (amended, witness): the spec's concrete instance — text "OK" is
selected by candidate "ok" (via the characterization) but not by candidate
"O". -/
theorem c5_text_match_witness :
    (find_text_match [elemOK] ["ok"]).isSome
    ∧ find_text_match [elemOK] ["O"] = none :=
  ⟨(c5_text_match_characterization [elemOK] ["ok"]).1.mpr
      ⟨"ok", by simp, elemOK, by simp, "OK", rfl, by decide, by decide⟩,
   rfl⟩

/-- Claim C6: the recorded sequence
`[{click, x:100, y:200, element:null}, {input_text, "Hello"}]` replays, for
any snapshot, as exactly one coordinate click at (100, 200) — the generator
takes the no-index branch, so no index click is attempted — followed by one
text-input action carrying "Hello" with `clear_text = true`. -/
theorem c6_replay_scenario (ui : List UIElement) :
    generate_step c6_click_op = Step.clickCoordsOnly (some 100) (some 200)
    ∧ replay ui [c6_click_op, c6_input_op]
        = .ok [Prim.clickCoord (some 100) (some 200), Prim.inputText "Hello" true] := by
  exact ⟨rfl, rfl⟩

/-- Claim C7: `_record_operation` inserts a `WAIT` entry immediately before
the new operation iff the gap between the new operation's timestamp and the
previous operation's timestamp exceeds 1.0 s and at least one operation has
already been recorded; the `WAIT` carries the gap rounded to two decimals; no
`WAIT` is ever synthesized before the first operation. -/
theorem c7_wait_synthesis (s : RecorderState) (now : ℚ) (payload : OpPayload) :
    (now - s.start_time - s.last_operation_time > 1 ∧ s.operations ≠ [] →
      (record_operation s now payload).operations
        = s.operations
          ++ [RecEntry.waitEntry (round2 (now - s.start_time - s.last_operation_time))
                s.last_operation_time,
              RecEntry.opEntry payload (now - s.start_time)])
    ∧ (¬(now - s.start_time - s.last_operation_time > 1 ∧ s.operations ≠ []) →
      (record_operation s now payload).operations
        = s.operations ++ [RecEntry.opEntry payload (now - s.start_time)])
    ∧ (s.operations = [] →
      (record_operation s now payload).operations
        = [RecEntry.opEntry payload (now - s.start_time)]) := by
  refine ⟨fun hcond => ?_, fun hcond => ?_, fun hempty => ?_⟩
  · simp [record_operation, hcond]
  · simp [record_operation, hcond]
  · simp [record_operation, hempty]

/-- Claim C7 (witness): with one operation already recorded and a 2.5 s gap,
the recorder inserts the `WAIT` entry before the new operation. -/
theorem c7_wait_synthesis_witness :
    (record_operation c7_base (5 / 2) (.inputTextOp "second")).operations
      = c7_base.operations
        ++ [RecEntry.waitEntry (round2 (5 / 2 - c7_base.start_time - c7_base.last_operation_time))
              c7_base.last_operation_time,
            RecEntry.opEntry (.inputTextOp "second") (5 / 2 - c7_base.start_time)] :=
  (c7_wait_synthesis c7_base (5 / 2) (.inputTextOp "second")).1
    ⟨by norm_num [c7_base], by simp [c7_base]⟩

/-- Claim C8 (code bug, evidence): the timeout-check thread is spawned with no
sleep, so its callback runs after only a scheduling delay; for any event trace
without an Enter key whose checks run within the 1.0 s timeout of their spawn
(in particular, immediately, as scheduled), no pending text is ever flushed —
the check compares against the `last_input_time` the same event just wrote,
and no later check exists once events stop.  The idle-timeout flush described
by the claim therefore never happens. -/
theorem c8_idle_flush_never_fires (s : RecorderState) (cache : KeyCache)
    (events : List KbEvent)
    (hdelay : ∀ ev ∈ events, ev.cb_delay ≤ 1)
    (hkey : ∀ ev ∈ events, ev.key_code ≠ "KEY_ENTER") :
    (run_keyboard_events s cache events).1 = s := by
  induction events generalizing s cache with
  | nil => rfl
  | cons ev rest ih =>
    have hd : ev.cb_delay ≤ 1 := hdelay ev (by simp)
    have hk : ev.key_code ≠ "KEY_ENTER" := hkey ev (by simp)
    have hstep : (process_keyboard_event s cache ev.key_code ev.key_state ev.time ev.cb_delay).1 = s := by
      unfold process_keyboard_event check_input_timeout
      have henter : (ev.key_code == "KEY_ENTER") = false := beq_eq_false_iff_ne.mpr hk
      have hnot : ∀ t : String, ¬(pyStrip t ≠ "" ∧ ev.time + ev.cb_delay - ev.time > 1) := by
        rintro t ⟨-, habs⟩
        linarith
      by_cases h1 : (ev.key_code == "KEY_LEFTSHIFT") = true
      · simp [h1]
      · by_cases h2 : (ev.key_state == "DOWN") = true
        · by_cases h3 : (ev.key_code == "KEY_BACKSPACE") = true
          · simp [h1, h2, h3]
          · by_cases h4 : (key_mapping ev.key_code == "") = true
            · simp only [h1, h2, h3, h4, henter, Bool.not_true, Bool.false_and,
                Bool.false_eq_true, if_false, if_true, Bool.not_false]
              rw [if_neg (hnot _)]
            · simp only [h1, h2, h3, h4, henter, Bool.not_true, Bool.false_and,
                Bool.false_eq_true, if_false, if_true, Bool.not_false]
              rw [if_neg (hnot _)]
        · simp [h1, h2]
    rw [run_keyboard_events, hstep]
    exact ih _ _ (fun e he => hdelay e (by simp [he])) (fun e he => hkey e (by simp [he]))

/-- Claim C8 (witness): a single `KEY_A` key-down on a fresh recorder — with
the check thread running immediately, as spawned — records nothing, while the
pending buffer holds "a"; with no later check, the buffered text is never
recorded no matter how long the device then stays idle. -/
theorem c8_idle_flush_witness :
    (run_keyboard_events freshRecorder freshKeyCache [keyAEvent]).1 = freshRecorder :=
  c8_idle_flush_never_fires freshRecorder freshKeyCache [keyAEvent]
    (by intro ev hev; rw [List.mem_singleton] at hev; subst hev; norm_num [keyAEvent])
    (by intro ev hev; rw [List.mem_singleton] at hev; subst hev; simp [keyAEvent])

/-- Claim C9: `_convert_raw_to_screen` is total — the bare `except` turns the
zero-width-range division error into the degraded modulo result — and for a
positive screen geometry every call yields coordinates within the screen
bounds. -/
theorem c9_convert_total_in_bounds (b : TouchBounds) (w h rx ry : Int)
    (hw : 0 < w) (hh : 0 < h) :
    (0 ≤ (convert_raw_to_screen b w h rx ry).1
      ∧ (convert_raw_to_screen b w h rx ry).1 ≤ w
      ∧ 0 ≤ (convert_raw_to_screen b w h rx ry).2
      ∧ (convert_raw_to_screen b w h rx ry).2 ≤ h)
    ∧ (convert_try b w h rx ry = none →
        convert_raw_to_screen b w h rx ry = (rx % w, ry % h)) := by
  constructor
  · unfold convert_raw_to_screen
    cases hc : convert_try b w h rx ry with
    | none =>
      refine ⟨Int.emod_nonneg rx (by omega), le_of_lt (Int.emod_lt_of_pos rx hw),
              Int.emod_nonneg ry (by omega), le_of_lt (Int.emod_lt_of_pos ry hh)⟩
    | some p =>
      unfold convert_try at hc
      split at hc
      · exact absurd hc (by simp)
      · rw [Option.some_inj] at hc
        subst hc
        refine ⟨le_max_left 0 _, max_le hw.le (min_le_right _ _),
                le_max_left 0 _, max_le hh.le (min_le_right _ _)⟩
  · intro hnone
    simp [convert_raw_to_screen, hnone]

/-- Claim C9 (witness): a fully degenerate zero-width geometry never raises —
the call lands in the modulo fallback and stays within the 1080×2400 screen. -/
theorem c9_convert_total_witness :
    (0 ≤ (convert_raw_to_screen ⟨0, 0, 0, 0⟩ 1080 2400 (-7) 5000).1
      ∧ (convert_raw_to_screen ⟨0, 0, 0, 0⟩ 1080 2400 (-7) 5000).1 ≤ 1080
      ∧ 0 ≤ (convert_raw_to_screen ⟨0, 0, 0, 0⟩ 1080 2400 (-7) 5000).2
      ∧ (convert_raw_to_screen ⟨0, 0, 0, 0⟩ 1080 2400 (-7) 5000).2 ≤ 2400)
    ∧ (convert_try (⟨0, 0, 0, 0⟩ : TouchBounds) 1080 2400 (-7) 5000 = none →
        convert_raw_to_screen ⟨0, 0, 0, 0⟩ 1080 2400 (-7) 5000 = ((-7) % 1080, 5000 % 2400)) :=
  c9_convert_total_in_bounds ⟨0, 0, 0, 0⟩ 1080 2400 (-7) 5000 (by decide) (by decide)

/-- Claim C10: `record_text_input` appends nothing when recording is inactive
or the text strips to empty; otherwise the appended operation entry carries
exactly the stripped text (possibly preceded by one synthesized `WAIT`
entry from `_record_operation`). -/
theorem c10_record_text_guard (s : RecorderState) (now : ℚ) (text : String) :
    (s.is_recording = false ∨ pyStrip text = "" → record_text_input s now text = s)
    ∧ (s.is_recording = true → pyStrip text ≠ "" →
        ∃ inserted,
          (record_text_input s now text).operations
            = s.operations ++ inserted
              ++ [RecEntry.opEntry (.inputTextOp (pyStrip text)) (now - s.start_time)]
          ∧ (inserted = []
             ∨ inserted
               = [RecEntry.waitEntry (round2 (now - s.start_time - s.last_operation_time))
                    s.last_operation_time])) := by
  constructor
  · intro h
    rcases h with h | h <;> simp [record_text_input, h]
  · intro hrec hstrip
    by_cases hcond : now - s.start_time - s.last_operation_time > 1 ∧ s.operations ≠ []
    · refine ⟨[RecEntry.waitEntry (round2 (now - s.start_time - s.last_operation_time))
          s.last_operation_time], ?_, Or.inr rfl⟩
      simp [record_text_input, record_operation, hrec, hstrip, hcond]
    · refine ⟨[], ?_, Or.inl rfl⟩
      simp [record_text_input, record_operation, hrec, hstrip, hcond]

/-- Claim C10 (witness): whitespace-only input records nothing on an active
fresh recorder, while "  hi \n" records an operation carrying "hi". -/
theorem c10_record_text_witness :
    record_text_input freshRecorder 0 "   " = freshRecorder
    ∧ ∃ inserted,
        (record_text_input freshRecorder 0 "  hi \n").operations
          = freshRecorder.operations ++ inserted
            ++ [RecEntry.opEntry (.inputTextOp (pyStrip "  hi \n")) (0 - freshRecorder.start_time)]
        ∧ (inserted = []
           ∨ inserted
             = [RecEntry.waitEntry (round2 (0 - freshRecorder.start_time - freshRecorder.last_operation_time))
                  freshRecorder.last_operation_time]) :=
  ⟨(c10_record_text_guard freshRecorder 0 "   ").1 (Or.inr (by decide)),
   (c10_record_text_guard freshRecorder 0 "  hi \n").2 rfl (by decide)⟩
